import Mathlib

/-
  Shallow embedding of src/serve.go (package webapp): an HTTP middleware
  that wraps a handler with access logging and recovery from runtime
  faults.  Pure formatting functions become Lean functions; the stateful
  request dispatch becomes explicit state passing; Go buffered channels
  become an explicit queue type whose send operation returns `none` when
  the sender would block.
-/

namespace Webapp

/-- Model of Go `time.Time`: an absolute instant (`nanos`, Unix
nanoseconds, as held by the monotonic/wall clock) together with the
broken-down civil fields in the time's location, which is what
`Time.Format` renders.  The claims never relate the two views, so they
are carried as independent fields. -/
structure GoTime where
  year : Nat
  month : Nat
  day : Nat
  hour : Nat
  minute : Nat
  second : Nat
  zoneMinutes : Int
  nanos : Int
  deriving DecidableEq

/-- Go's zero `time.Time`: January 1, year 1, 00:00:00 UTC.  A freshly
built `LogRecord` has this as its `RequestCompleted` value until the
dispatcher assigns a completion time. -/
def timeZero : GoTime :=
  { year := 1, month := 1, day := 1, hour := 0, minute := 0, second := 0,
    zoneMinutes := 0, nanos := -62135596800000000000 }

/-- Two-digit zero padding, as Go's `02`/`15`/`04`/`05` layout fields. -/
def pad2 (n : Nat) : String :=
  if n < 10 then "0" ++ toString n else toString n

/-- Four-digit zero padding, as Go's `2006` layout field. -/
def pad4 (n : Nat) : String :=
  if n < 10 then "000" ++ toString n
  else if n < 100 then "00" ++ toString n
  else if n < 1000 then "0" ++ toString n
  else toString n

/-- Go's `Jan` layout field: abbreviated month name. -/
def monthAbbrev : Nat → String
  | 1 => "Jan"
  | 2 => "Feb"
  | 3 => "Mar"
  | 4 => "Apr"
  | 5 => "May"
  | 6 => "Jun"
  | 7 => "Jul"
  | 8 => "Aug"
  | 9 => "Sep"
  | 10 => "Oct"
  | 11 => "Nov"
  | _ => "Dec"

/-- Go's `-0700` layout field: signed zone offset as ±hhmm. -/
def zoneFormat (m : Int) : String :=
  (if m < 0 then "-" else "+") ++ pad2 (m.natAbs / 60) ++ pad2 (m.natAbs % 60)

/-- The layout constant `ApacheTime = "02/Jan/2006:15:04:05 -0700"`
from src/serve.go line 15. -/
def ApacheTime : String := "02/Jan/2006:15:04:05 -0700"

/-- Model of `t.Format(ApacheTime)`: renders the layout
`02/Jan/2006:15:04:05 -0700`, i.e. `DD/Mon/YYYY:HH:MM:SS ±ZZZZ`. -/
def formatApacheTime (t : GoTime) : String :=
  pad2 t.day ++ "/" ++ monthAbbrev t.month ++ "/" ++ pad4 t.year ++ ":" ++
    pad2 t.hour ++ ":" ++ pad2 t.minute ++ ":" ++ pad2 t.second ++ " " ++
    zoneFormat t.zoneMinutes

/-- The constant `errorPageShort` from src/serve.go line 12. -/
def errorPageShort : String :=
  "<html><body><h1>500 Internal server error</h1></body></html>"

/-- The constant `errorPageDetailed` from src/serve.go line 13: a
`fmt` format string with verbs `%v` and `%s`. -/
def errorPageDetailed : String :=
  "<html><body><h1>500 Internal server error</h1><p>A runtime error has just happened:</p><ul><li>%v</li></ul><p>Stack trace of the problem:</p><pre>%s</pre></body></html>"

/-- Model of `fmt.Sprintf` restricted to the verbs `%v` and `%s` applied
to already-rendered string arguments, which is how src/serve.go uses it:
each verb consumes the next argument, whose text is spliced in verbatim
(fmt does not reinterpret argument text). -/
def sprintfSubst : List Char → List String → List Char
  | [], _ => []
  | '%' :: 'v' :: rest, a :: args => a.data ++ sprintfSubst rest args
  | '%' :: 's' :: rest, a :: args => a.data ++ sprintfSubst rest args
  | c :: rest, args => c :: sprintfSubst rest args

/-- `fmt.Sprintf` on a format string and string arguments. -/
def gofmt (f : String) (args : List String) : String :=
  String.mk (sprintfSubst f.data args)

/-- Characters of the remote address strictly before its last `:`, or
`none` when it has no `:`.  Models `strings.LastIndex(addr, ":")`
followed by the byte-slice `addr[:n]` (the colon is one byte, so the
byte slice is exactly the characters before the last colon). -/
def beforeLastColon : List Char → Option (List Char)
  | [] => none
  | c :: cs =>
    match beforeLastColon cs with
    | some rest => some (c :: rest)
    | none => if c = ':' then some [] else none

/-- Host extraction of src/serve.go lines 109-113: the remote address up
to its last colon, or the whole address when it has no colon. -/
def hostOf (addr : String) : String :=
  match beforeLastColon addr.data with
  | some l => String.mk l
  | none => addr

/-- 2^64; `Bytes` is a Go `uint64`, so additions wrap at this modulus. -/
def u64Mod : Nat := 18446744073709551616

/-- The `LogRecord` struct of src/serve.go lines 17-29 (minus the
embedded `http.ResponseWriter`, whose observable effect — the chunks
forwarded to the client — is tracked alongside in `ReqState`). -/
structure LogRecord where
  Host : String
  Indent : String
  RequestStarted : GoTime
  RequestCompleted : GoTime
  Request : String
  Status : Nat
  Bytes : Nat
  Referer : String
  UserAgent : String
  deriving DecidableEq

/-- `CombinedFormat` of src/serve.go lines 44-48:
`%s - %s [%s] "%s" %d %d "%s" "%s"` over host, indent, formatted start
time, request line, status, bytes, referer, user agent. -/
def CombinedFormat (record : LogRecord) : String :=
  record.Host ++ " - " ++ record.Indent ++ " [" ++
    formatApacheTime record.RequestStarted ++ "] \"" ++ record.Request ++ "\" " ++
    toString record.Status ++ " " ++ toString record.Bytes ++ " \"" ++
    record.Referer ++ "\" \"" ++ record.UserAgent ++ "\""

/-- The elapsed-milliseconds field of `PerfFormat`:
`record.RequestCompleted.Sub(record.RequestStarted).Nanoseconds()/1e6`.
Go's integer division truncates toward zero, which is `Int.tdiv`. -/
def elapsedMs (record : LogRecord) : Int :=
  Int.tdiv (record.RequestCompleted.nanos - record.RequestStarted.nanos) 1000000

/-- `PerfFormat` of src/serve.go lines 50-55:
`%s - %s [%s] "%s" %d %d %dms` with the elapsed whole milliseconds as
the final numeric field. -/
def PerfFormat (record : LogRecord) : String :=
  record.Host ++ " - " ++ record.Indent ++ " [" ++
    formatApacheTime record.RequestStarted ++ "] \"" ++ record.Request ++ "\" " ++
    toString record.Status ++ " " ++ toString record.Bytes ++ " " ++
    toString (elapsedMs record) ++ "ms"

/-- A Go buffered channel of capacity `cap` holding the queued,
not-yet-consumed values in `buf`. -/
structure Chan (α : Type) where
  cap : Nat
  buf : List α
  deriving DecidableEq

/-- Model of Go's blocking channel send `ch <- x`: when the buffer is
not full the value is appended; when the buffer already holds `cap`
values the sender suspends, modelled as `none` — the value is neither
dropped nor is an error returned. -/
def Chan.send {α : Type} (c : Chan α) (x : α) : Option (Chan α) :=
  if c.buf.length < c.cap then some { c with buf := c.buf ++ [x] } else none

/-- One observable effect of the wrapped handler through the substituted
writer: a `Write(p)` forwarding chunk `p` with the underlying writer
reporting `reported` bytes written, or a `WriteHeader(status)` call. -/
inductive HEvent where
  | write (chunk : String) (reported : Nat)
  | writeHeader (status : Nat)
  deriving DecidableEq

/-- State of one request: the record plus the chunks forwarded to the
underlying `http.ResponseWriter`. -/
structure ReqState where
  record : LogRecord
  out : List String
  deriving DecidableEq

/-- `LogRecord.Write` (src/serve.go lines 31-35) forwards the chunk and
adds the reported count to `Bytes` (uint64 wraparound);
`LogRecord.WriteHeader` (lines 37-40) stores the status and forwards. -/
def stepEvent (st : ReqState) : HEvent → ReqState
  | .write chunk n =>
    { record := { st.record with Bytes := (st.record.Bytes + n) % u64Mod },
      out := st.out ++ [chunk] }
  | .writeHeader s =>
    { record := { st.record with Status := s }, out := st.out }

/-- Runs the handler's writer interactions in order. -/
def runEvents (st : ReqState) (evs : List HEvent) : ReqState :=
  evs.foldl stepEvent st

/-- Data of one recovered runtime fault.  `err` is the `%v` rendering of
the recovered value.  Modelled from the spec: `Stack(2)` — a captured
call-stack trace starting 2 frames up from the guard — and `where(2)` —
the call site — are helpers of this repository not present under src/,
so `stack` and `loc` carry their output as opaque text; `now` is the
`time.Now()` instant at reporting time and `reported` the byte count the
underlying writer reports for the guard's error-page write. -/
structure PanicInfo where
  err : String
  stack : String
  loc : String
  now : GoTime
  reported : Nat
  deriving DecidableEq

/-- Termination mode of one handler invocation. -/
inductive Outcome where
  | normal
  | panics (info : PanicInfo)
  deriving DecidableEq

/-- One handler invocation: its writer interactions in order and how it
terminates (a panicking handler has already produced `events` when the
fault is raised). -/
structure HandlerRun where
  events : List HEvent
  outcome : Outcome
  deriving DecidableEq

/-- An inbound request as the middleware observes it: request-line
parts, remote address, the two logged headers, and the `time.Now()`
instants the dispatcher reads at entry and after the handler. -/
structure Request where
  method : String
  uri : String
  proto : String
  remoteAddr : String
  referer : String
  userAgent : String
  startedAt : GoTime
  completedAt : GoTime
  deriving DecidableEq

/-- The `App` struct of src/serve.go lines 57-64.  `Handler` maps a
request to that invocation's observable behaviour; `Errors` is the
optional error-report channel (`nil` modelled as `none`), `Loggers` the
registered log-sink channels. -/
structure App where
  StackIn500 : Bool
  StackInLog : Bool
  Handler : Request → HandlerRun
  Errors : Option (Chan String)
  Loggers : List (Chan LogRecord)

/-- `NewApp` of src/serve.go lines 66-74: both stack flags are set from
the single `detailed_stacks` argument; no error sink, no loggers. -/
def NewApp (h : Request → HandlerRun) (detailed_stacks : Bool) : App :=
  { StackIn500 := detailed_stacks, StackInLog := detailed_stacks,
    Handler := h, Errors := none, Loggers := [] }

/-- The error-report line built by `HandlePanic` (src/serve.go lines
84-92): with `StackInLog` the format is `[%s] [panic] %v [at %s]\n%s`
over formatted now, error, call site and stack; without it the stack
line is absent. -/
def panicMsg (stackInLog : Bool) (info : PanicInfo) : String :=
  if stackInLog then
    gofmt "[%s] [panic] %v [at %s]\n%s"
      [formatApacheTime info.now, info.err, info.loc, info.stack]
  else
    gofmt "[%s] [panic] %v [at %s]"
      [formatApacheTime info.now, info.err, info.loc]

/-- The client-facing error body written by `HandlePanic` (src/serve.go
lines 79-83): the detailed page rendered through `fmt.Fprintf` when
`StackIn500` is set, the short page otherwise. -/
def panicBody (stackIn500 : Bool) (info : PanicInfo) : String :=
  if stackIn500 then gofmt errorPageDetailed [info.err, info.stack]
  else errorPageShort

/-- The request state after the guard's client-facing work: status 500
stored through the record's `WriteHeader`, then one of the two fixed
bodies forwarded through the record's `Write` (whose reported count is
added to `Bytes` with uint64 wraparound). -/
def guardState (app : App) (st : ReqState) (info : PanicInfo) : ReqState :=
  { record :=
      { st.record with
        Status := 500
        Bytes := (st.record.Bytes + info.reported) % u64Mod }
    out := st.out ++ [panicBody app.StackIn500 info] }

/-- `App.HandlePanic` of src/serve.go lines 76-94, in the recovering
case (`recover() != nil`): sets status 500 through the record's
`WriteHeader`, writes one of the two fixed bodies through the record's
`Write`, and, when an error sink exists, sends exactly one formatted
report on it.  `none` means the send on a full error channel suspended
the request. -/
def HandlePanic (app : App) (st : ReqState) (info : PanicInfo) :
    Option (ReqState × App) :=
  match app.Errors with
  | none => some (guardState app st info, app)
  | some ch =>
    (ch.send (panicMsg app.StackInLog info)).map
      (fun ch2 => (guardState app st info, { app with Errors := some ch2 }))

/-- The `LogRecord` the dispatcher builds at request entry
(src/serve.go lines 97-113): indent `-`, start time now, request line
`method + " " + uri + " " + proto`, status 200, zero bytes, the two
headers, host from the remote address; `RequestCompleted` still holds
the zero time. -/
def initRecord (r : Request) : LogRecord :=
  { Host := hostOf r.remoteAddr, Indent := "-",
    RequestStarted := r.startedAt, RequestCompleted := timeZero,
    Request := r.method ++ " " ++ r.uri ++ " " ++ r.proto,
    Status := 200, Bytes := 0,
    Referer := r.referer, UserAgent := r.userAgent }

/-- The fan-out loop of src/serve.go lines 118-120: a blocking send of
the record on each logger channel in order; `none` when some send
blocks. -/
def sendAll : List (Chan LogRecord) → LogRecord → Option (List (Chan LogRecord))
  | [], _ => some []
  | c :: cs, rec =>
    match c.send rec with
    | none => none
    | some c2 => (sendAll cs rec).map (fun l => c2 :: l)

/-- The request state once the wrapped handler's writer interactions
have been applied to the fresh record. -/
def handlerState (app : App) (r : Request) : ReqState :=
  runEvents { record := initRecord r, out := [] } (app.Handler r).events

/-- The request state after line 116 of src/serve.go: the completion
instant is stamped into the record (normal path only). -/
def completeState (app : App) (r : Request) : ReqState :=
  { record := { (handlerState app r).record with RequestCompleted := r.completedAt },
    out := (handlerState app r).out }

/-- `App.ServeHTTP` of src/serve.go lines 96-121.  The deferred
`HandlePanic` is Go's recovery point: when the handler panics the defer
runs and `ServeHTTP` then returns, so the completion-timestamp
assignment (line 116) and the fan-out loop (lines 118-120) never
execute on the panic path; on normal return the deferred guard's
`recover()` yields nil and does nothing. -/
def ServeHTTP (app : App) (r : Request) : Option (ReqState × App) :=
  match (app.Handler r).outcome with
  | .panics info => HandlePanic app (handlerState app r) info
  | .normal =>
    (sendAll app.Loggers (completeState app r).record).map
      (fun ls => (completeState app r, { app with Loggers := ls }))

/-- `App.AddLogger` of src/serve.go lines 123-132: registers a fresh
channel of capacity 1000 (the formatter and destination only matter to
the consumer goroutine, which drains the channel and is not part of the
queue state modelled here). -/
def AddLogger (app : App) : App :=
  { app with Loggers := app.Loggers ++ [{ cap := 1000, buf := [] }] }

/-- `App.ErrorLogger` of src/serve.go lines 134-143: installs the error
channel of capacity 1000. -/
def ErrorLogger (app : App) : App :=
  { app with Errors := some { cap := 1000, buf := [] } }

/-- Observation: the total byte count the underlying writer reported
across a handler's `Write` calls. -/
def sumReported : List HEvent → Nat
  | [] => 0
  | .write _ n :: tl => n + sumReported tl
  | .writeHeader _ :: tl => sumReported tl

/-- Observation: the statuses a handler explicitly set, in order. -/
def setStatuses : List HEvent → List Nat
  | [] => []
  | .write _ _ :: tl => setStatuses tl
  | .writeHeader s :: tl => s :: setStatuses tl

/-- Observation: the chunks a handler forwarded to the client, in
order. -/
def chunksOf : List HEvent → List String
  | [] => []
  | .write c _ :: tl => c :: chunksOf tl
  | .writeHeader _ :: tl => chunksOf tl

/-- Everything of `PerfFormat` up to and including the space before the
elapsed-milliseconds field. -/
def perfHead (record : LogRecord) : String :=
  record.Host ++ " - " ++ record.Indent ++ " [" ++
    formatApacheTime record.RequestStarted ++ "] \"" ++ record.Request ++ "\" " ++
    toString record.Status ++ " " ++ toString record.Bytes ++ " "

/-- The record of the combined-formatter test vector of the spec,
parameterised by its start time. -/
def combinedSample (t : GoTime) : LogRecord :=
  { Host := "10.0.0.1", Indent := "-", RequestStarted := t,
    RequestCompleted := timeZero, Request := "GET /x HTTP/1.1",
    Status := 200, Bytes := 512, Referer := "-", UserAgent := "test-agent" }

/-- A handler that writes nothing and returns normally. -/
def constHandler : Request → HandlerRun :=
  fun _ => { events := [], outcome := .normal }

/-- A concrete recovered fault used by counterexamples and witnesses. -/
def samplePanic : PanicInfo :=
  { err := "boom", stack := "goroutine 1", loc := "serve.go:115",
    now := timeZero, reported := 59 }

/-- A handler that writes nothing and panics. -/
def panicHandler : Request → HandlerRun :=
  fun _ => { events := [], outcome := .panics samplePanic }

/-- A concrete instant used by counterexamples and witnesses. -/
def sampleTime : GoTime :=
  { year := 2026, month := 10, day := 11, hour := 8, minute := 30,
    second := 5, zoneMinutes := 0, nanos := 1760171405000000000 }

/-- A concrete inbound request used by counterexamples and witnesses;
its completion instant differs from the zero time and from its start. -/
def sampleRequest : Request :=
  { method := "GET", uri := "/x", proto := "HTTP/1.1",
    remoteAddr := "203.0.113.5:54321", referer := "-",
    userAgent := "test-agent", startedAt := sampleTime,
    completedAt := { sampleTime with second := 6, nanos := 1760171406000000000 } }

/-- An app with one registered (empty) log sink whose handler panics. -/
def samplePanicApp : App :=
  { StackIn500 := false, StackInLog := false, Handler := panicHandler,
    Errors := none, Loggers := [{ cap := 1000, buf := [] }] }

/-- A record that completed at the very instant it started. -/
def zeroDurRecord : LogRecord :=
  { combinedSample sampleTime with RequestCompleted := sampleTime }

/-- One nanosecond after `sampleTime`: same whole-millisecond bucket. -/
def tinyLater : GoTime :=
  { sampleTime with nanos := 1760171405000000001 }

theorem u64Mod_pos : 0 < u64Mod := by norm_num [u64Mod]

theorem string_mk_data (s : String) : String.mk s.data = s := by
  cases s
  rfl

theorem getLast?_cons_getD (l : List Nat) :
    ∀ s d : Nat, ((s :: l).getLast?).getD d = (l.getLast?).getD s := by
  induction l with
  | nil => intro s d; rfl
  | cons b tl ih =>
    intro s d
    rw [List.getLast?_cons_cons, ih b d, show ((b :: tl).getLast?).getD s =
      (tl.getLast?).getD b from ih b s]

theorem beforeLastColon_of_no_colon (l : List Char) (h : ':' ∉ l) :
    beforeLastColon l = none := by
  induction l with
  | nil => rfl
  | cons c cs ih =>
    have hc : ¬ c = ':' := fun hc => h (hc ▸ List.mem_cons_self c cs)
    have hcs : ':' ∉ cs := fun hm => h (List.mem_cons_of_mem c hm)
    simp [beforeLastColon, ih hcs, hc]

theorem beforeLastColon_split (p s : List Char) (h : ':' ∉ s) :
    beforeLastColon (p ++ ':' :: s) = some p := by
  induction p with
  | nil => simp [beforeLastColon, beforeLastColon_of_no_colon s h]
  | cons c cs ih => simp [beforeLastColon, ih]

theorem runEvents_cons (st : ReqState) (e : HEvent) (evs : List HEvent) :
    runEvents st (e :: evs) = runEvents (stepEvent st e) evs := rfl

theorem runEvents_bytes (evs : List HEvent) :
    ∀ st : ReqState, st.record.Bytes < u64Mod →
      (runEvents st evs).record.Bytes =
        (st.record.Bytes + sumReported evs) % u64Mod := by
  induction evs with
  | nil =>
    intro st h
    simp [runEvents, sumReported, Nat.mod_eq_of_lt h]
  | cons e tl ih =>
    intro st h
    cases e with
    | write c n =>
      rw [runEvents_cons, ih _ (Nat.mod_lt _ u64Mod_pos)]
      show ((st.record.Bytes + n) % u64Mod + sumReported tl) % u64Mod = _
      rw [Nat.mod_add_mod, Nat.add_assoc]
      rfl
    | writeHeader s =>
      rw [runEvents_cons]
      exact ih (stepEvent st (.writeHeader s)) h

theorem runEvents_status (evs : List HEvent) :
    ∀ st : ReqState, (runEvents st evs).record.Status =
      ((setStatuses evs).getLast?).getD st.record.Status := by
  induction evs with
  | nil => intro st; rfl
  | cons e tl ih =>
    intro st
    cases e with
    | write c n => rw [runEvents_cons, ih]; rfl
    | writeHeader s =>
      rw [runEvents_cons, ih]
      show ((setStatuses tl).getLast?).getD s = _
      rw [show setStatuses (.writeHeader s :: tl) = s :: setStatuses tl from rfl,
        getLast?_cons_getD]

theorem runEvents_out (evs : List HEvent) :
    ∀ st : ReqState, (runEvents st evs).out = st.out ++ chunksOf evs := by
  induction evs with
  | nil => intro st; simp [runEvents, chunksOf]
  | cons e tl ih =>
    intro st
    cases e with
    | write c n =>
      rw [runEvents_cons, ih]
      show (st.out ++ [c]) ++ chunksOf tl = st.out ++ (c :: chunksOf tl)
      simp
    | writeHeader s => rw [runEvents_cons, ih]; rfl

theorem runEvents_fixed (evs : List HEvent) :
    ∀ st : ReqState,
      (runEvents st evs).record.Host = st.record.Host ∧
      (runEvents st evs).record.Indent = st.record.Indent ∧
      (runEvents st evs).record.RequestStarted = st.record.RequestStarted ∧
      (runEvents st evs).record.RequestCompleted = st.record.RequestCompleted ∧
      (runEvents st evs).record.Request = st.record.Request ∧
      (runEvents st evs).record.Referer = st.record.Referer ∧
      (runEvents st evs).record.UserAgent = st.record.UserAgent := by
  induction evs with
  | nil => intro st; exact ⟨rfl, rfl, rfl, rfl, rfl, rfl, rfl⟩
  | cons e tl ih =>
    intro st
    cases e with
    | write c n => exact ih (stepEvent st (.write c n))
    | writeHeader s => exact ih (stepEvent st (.writeHeader s))

/-- C5: host extraction returns the prefix of the remote address up to
(excluding) its last colon, and an address without a colon unchanged;
in particular "203.0.113.5:54321" yields "203.0.113.5" while
"203.0.113.5" is returned whole, and the dispatcher stores exactly this
extraction as the record's host. -/
theorem claim5_host_extraction :
    (∀ p s : String, ':' ∉ s.data → hostOf (p ++ ":" ++ s) = p) ∧
    (∀ a : String, ':' ∉ a.data → hostOf a = a) ∧
    hostOf "203.0.113.5:54321" = "203.0.113.5" ∧
    hostOf "203.0.113.5" = "203.0.113.5" ∧
    (∀ r : Request, (initRecord r).Host = hostOf r.remoteAddr) := by
  refine ⟨?_, ?_, ?_, ?_, fun r => rfl⟩
  · intro p s h
    unfold hostOf
    rw [show (p ++ ":" ++ s).data = p.data ++ ':' :: s.data from by
      rw [String.data_append, String.data_append]; simp]
    rw [beforeLastColon_split p.data s.data h]
  · intro a h
    unfold hostOf
    rw [beforeLastColon_of_no_colon a.data h]
  · rfl
  · rfl

/-- C5 witness: the two hypothesised parts of the host-extraction
theorem at the spec's own example address. -/
theorem claim5_witness :
    (':' ∉ "54321".data ∧ hostOf ("203.0.113.5" ++ ":" ++ "54321") = "203.0.113.5") ∧
    (':' ∉ "10.0.0.1".data ∧ hostOf "10.0.0.1" = "10.0.0.1") :=
  ⟨⟨by decide, claim5_host_extraction.1 "203.0.113.5" "54321" (by decide)⟩,
   ⟨by decide, claim5_host_extraction.2.1 "10.0.0.1" (by decide)⟩⟩

/-- C6: the short error body written on recovered panic is bit-exact
the fixed text, and the detailed body is bit-exact the heading followed
by the runtime-error paragraph with the error value and the captured
stack substituted for the two placeholders. -/
theorem claim6_error_page_payloads :
    (∀ info : PanicInfo, panicBody false info =
      "<html><body><h1>500 Internal server error</h1></body></html>") ∧
    (∀ info : PanicInfo, panicBody true info =
      "<html><body><h1>500 Internal server error</h1><p>A runtime error has just happened:</p><ul><li>" ++
        (info.err ++ ("</li></ul><p>Stack trace of the problem:</p><pre>" ++
          (info.stack ++ "</pre></body></html>")))) :=
  ⟨fun _ => rfl, fun _ => rfl⟩

/-- C3 counterexample: NewApp derives both stack flags from its single
detailed_stacks argument, so for each of the two possible argument
values the constructed App carries equal response-stack and log-stack
flags — the constructor cannot produce an App on which they differ. -/
theorem claim3_counterexample :
    (NewApp constHandler true).StackIn500 = (NewApp constHandler true).StackInLog ∧
    (NewApp constHandler false).StackIn500 = (NewApp constHandler false).StackInLog :=
  ⟨rfl, rfl⟩

/-- C3 amended: the two stack-trace flags are independent fields of the
App struct (an App value with differing flags exists), but they are not
independently configurable through the constructor: NewApp takes one
boolean and sets both flags to it, so every constructed App has the two
flags equal. -/
theorem claim3_flags_at_construction :
    (∀ (h : Request → HandlerRun) (b : Bool),
      (NewApp h b).StackIn500 = (NewApp h b).StackInLog) ∧
    (∃ a : App, a.StackIn500 ≠ a.StackInLog) :=
  ⟨fun _ _ => rfl,
   ⟨{ StackIn500 := true, StackInLog := false, Handler := constHandler,
      Errors := none, Loggers := [] }, by decide⟩⟩

/-- C7: the performance formatter's last field is the elapsed time —
completion minus start — truncated to whole milliseconds with an `ms`
suffix: for a non-negative duration the rendered integer q satisfies
q·10⁶ ≤ elapsed nanoseconds < (q+1)·10⁶, and a record whose completion
instant equals its start instant renders `0ms`. -/
theorem claim7_perf_elapsed_field (record : LogRecord) :
    (0 ≤ record.RequestCompleted.nanos - record.RequestStarted.nanos →
      ∃ q : Int, PerfFormat record = perfHead record ++ (toString q ++ "ms") ∧
        1000000 * q ≤ record.RequestCompleted.nanos - record.RequestStarted.nanos ∧
        record.RequestCompleted.nanos - record.RequestStarted.nanos <
          1000000 * (q + 1)) ∧
    (record.RequestCompleted.nanos = record.RequestStarted.nanos →
      PerfFormat record = perfHead record ++ "0ms") := by
  have hperf : PerfFormat record =
      perfHead record ++ (toString (elapsedMs record) ++ "ms") := by
    rw [show PerfFormat record =
      perfHead record ++ toString (elapsedMs record) ++ "ms" from rfl,
      String.append_assoc]
  constructor
  · intro h
    refine ⟨elapsedMs record, hperf, ?_⟩
    unfold elapsedMs
    rw [Int.tdiv_eq_ediv h (by norm_num)]
    omega
  · intro h
    rw [hperf, show elapsedMs record = 0 from by
      unfold elapsedMs; rw [h, sub_self]; rfl]
    rfl

/-- C7 witness: the zero-duration record satisfies the hypothesis of
the 0ms part of the elapsed-time theorem and indeed renders `0ms`. -/
theorem claim7_witness :
    zeroDurRecord.RequestCompleted.nanos = zeroDurRecord.RequestStarted.nanos ∧
    PerfFormat zeroDurRecord = perfHead zeroDurRecord ++ "0ms" :=
  ⟨rfl, (claim7_perf_elapsed_field zeroDurRecord).2 rfl⟩

/-- C8: on the spec's test record the combined formatter produces
exactly the expected line, the bracketed field being the record's start
timestamp rendered by the `ApacheTime` layout, which renders a concrete
time in the DD/Mon/YYYY:HH:MM:SS ±ZZZZ shape. -/
theorem claim8_combined_line :
    (∀ t : GoTime, CombinedFormat (combinedSample t) =
      "10.0.0.1 - - [" ++ (formatApacheTime t ++
        "] \"GET /x HTTP/1.1\" 200 512 \"-\" \"test-agent\"")) ∧
    formatApacheTime sampleTime = "11/Oct/2026:08:30:05 +0000" ∧
    ApacheTime = "02/Jan/2006:15:04:05 -0700" := by
  refine ⟨fun t => ?_, rfl, rfl⟩
  simp only [CombinedFormat, combinedSample, String.append_assoc]
  rfl

/-- C10: the bracketed timestamp of both built-in formatters is the
request's start time: the completion time does not affect the combined
line at all, and affects the performance line only through the
elapsed-milliseconds value. -/
theorem claim10_bracket_timestamp_is_start :
    (∀ (record : LogRecord) (t : GoTime),
      CombinedFormat { record with RequestCompleted := t } =
        CombinedFormat record) ∧
    (∀ (record : LogRecord) (t t' : GoTime),
      elapsedMs { record with RequestCompleted := t } =
        elapsedMs { record with RequestCompleted := t' } →
      PerfFormat { record with RequestCompleted := t } =
        PerfFormat { record with RequestCompleted := t' }) ∧
    (∀ record : LogRecord, ∃ a b c : String,
      CombinedFormat record =
        a ++ ("[" ++ (formatApacheTime record.RequestStarted ++ ("]" ++ b))) ∧
      PerfFormat record =
        a ++ ("[" ++ (formatApacheTime record.RequestStarted ++ ("]" ++ c)))) := by
  refine ⟨fun record t => rfl, fun record t t' h => ?_, fun record => ?_⟩
  · simp only [PerfFormat]
    rw [h]
  · refine ⟨record.Host ++ " - " ++ record.Indent ++ " ",
      " \"" ++ record.Request ++ "\" " ++ toString record.Status ++ " " ++
        toString record.Bytes ++ " \"" ++ record.Referer ++ "\" \"" ++
        record.UserAgent ++ "\"",
      " \"" ++ record.Request ++ "\" " ++ toString record.Status ++ " " ++
        toString record.Bytes ++ " " ++ toString (elapsedMs record) ++ "ms",
      ?_, ?_⟩
    · simp only [CombinedFormat, String.append_assoc]
      rfl
    · simp only [PerfFormat, String.append_assoc]
      rfl

theorem serveHTTP_panics (app : App) (r : Request) (info : PanicInfo)
    (h : (app.Handler r).outcome = .panics info) :
    ServeHTTP app r = HandlePanic app (handlerState app r) info := by
  unfold ServeHTTP
  rw [h]

theorem serveHTTP_normal (app : App) (r : Request)
    (h : (app.Handler r).outcome = .normal) :
    ServeHTTP app r =
      (sendAll app.Loggers (completeState app r).record).map
        (fun ls => (completeState app r, { app with Loggers := ls })) := by
  unfold ServeHTTP
  rw [h]

theorem handlePanic_none (app : App) (st : ReqState) (info : PanicInfo)
    (he : app.Errors = none) :
    HandlePanic app st info = some (guardState app st info, app) := by
  unfold HandlePanic
  rw [he]

theorem handlePanic_some (app : App) (st : ReqState) (info : PanicInfo)
    (ch : Chan String) (he : app.Errors = some ch) :
    HandlePanic app st info =
      (ch.send (panicMsg app.StackInLog info)).map
        (fun ch2 => (guardState app st info, { app with Errors := some ch2 })) := by
  unfold HandlePanic
  rw [he]

theorem handlerState_out (app : App) (r : Request) :
    (handlerState app r).out = chunksOf (app.Handler r).events := by
  unfold handlerState
  rw [runEvents_out]
  simp

/-- C9: every sink registered by `AddLogger` starts as an empty queue
of fixed capacity 1000; sending onto a sink that already holds 1000
undrained records suspends the producer — the send yields no successor
state rather than a dropped record or an error — while a send onto a
sink with room appends the record, dropping nothing. -/
theorem claim9_queue_capacity_and_backpressure :
    (∀ app : App, ∃ c : Chan LogRecord,
      (AddLogger app).Loggers = app.Loggers ++ [c] ∧ c.cap = 1000 ∧ c.buf = []) ∧
    (∀ (c : Chan LogRecord) (x : LogRecord),
      c.cap = 1000 → c.buf.length = 1000 → c.send x = none) ∧
    (∀ (c : Chan LogRecord) (x : LogRecord), c.buf.length < c.cap →
      c.send x = some { cap := c.cap, buf := c.buf ++ [x] }) := by
  refine ⟨fun app => ⟨_, rfl, rfl, rfl⟩, ?_, ?_⟩
  · intro c x hcap hlen
    unfold Chan.send
    rw [hcap, hlen]
    simp
  · intro c x h
    unfold Chan.send
    rw [if_pos h]

/-- C9 witness: a sink of capacity 1000 holding 1000 undrained records
blocks the 1001st enqueue, and an empty capacity-1000 sink accepts a
record by appending it. -/
theorem claim9_witness :
    ((List.replicate 1000 (combinedSample timeZero)).length = 1000 ∧
      Chan.send { cap := 1000, buf := List.replicate 1000 (combinedSample timeZero) }
        (combinedSample timeZero) = none) ∧
    (((({ cap := 1000, buf := [] } : Chan LogRecord)).buf.length <
        ({ cap := 1000, buf := [] } : Chan LogRecord).cap) ∧
      Chan.send ({ cap := 1000, buf := [] } : Chan LogRecord)
        (combinedSample timeZero) =
        some { cap := 1000, buf := [combinedSample timeZero] }) :=
  ⟨⟨by rw [List.length_replicate], claim9_queue_capacity_and_backpressure.2.1
      { cap := 1000, buf := List.replicate 1000 (combinedSample timeZero) }
      (combinedSample timeZero) rfl (by rw [List.length_replicate])⟩,
   ⟨by decide, claim9_queue_capacity_and_backpressure.2.2
      { cap := 1000, buf := [] } (combinedSample timeZero) (by decide)⟩⟩

set_option maxHeartbeats 1000000 in
/-- C2: on every recovered handler panic the recorded status is exactly
500; the client-visible output is the handler's own chunks followed by
exactly one of the two fixed bodies — the detailed one precisely when
the response-stack flag is set; with no error sink configured ServeHTTP
completes without emitting any report, and with a configured sink (with
room) exactly one report is appended to its queue; the report is the
bracketed timestamp, the literal tag "panic", the error value and the
call site, with the full stack text appended precisely when the
log-stack flag is set. -/
theorem claim2_panic_response_and_report (app : App) (r : Request)
    (info : PanicInfo) (hp : (app.Handler r).outcome = .panics info) :
    (app.Errors = none →
      ServeHTTP app r = some (guardState app (handlerState app r) info, app)) ∧
    (∀ ch : Chan String, app.Errors = some ch → ch.buf.length < ch.cap →
      ServeHTTP app r = some (guardState app (handlerState app r) info,
        { app with Errors := some (Chan.mk ch.cap (ch.buf ++ [panicMsg app.StackInLog info])) })) ∧
    (guardState app (handlerState app r) info).record.Status = 500 ∧
    (guardState app (handlerState app r) info).out =
      chunksOf (app.Handler r).events ++ [panicBody app.StackIn500 info] ∧
    panicMsg true info =
      "[" ++ (formatApacheTime info.now ++ ("] [panic] " ++ (info.err ++
        (" [at " ++ (info.loc ++ ("]\n" ++ info.stack)))))) ∧
    panicMsg false info =
      "[" ++ (formatApacheTime info.now ++ ("] [panic] " ++ (info.err ++
        (" [at " ++ (info.loc ++ "]"))))) := by
  refine ⟨?_, ?_, rfl, ?_, ?_, rfl⟩
  · intro he
    rw [serveHTTP_panics app r info hp,
      handlePanic_none app (handlerState app r) info he]
  · intro ch he hroom
    rw [serveHTTP_panics app r info hp,
      handlePanic_some app (handlerState app r) info ch he]
    unfold Chan.send
    rw [if_pos hroom]
    rfl
  · show (handlerState app r).out ++ [panicBody app.StackIn500 info] = _
    rw [handlerState_out]
  · have h1 : panicMsg true info =
        "[" ++ (formatApacheTime info.now ++ ("] [panic] " ++ (info.err ++
          (" [at " ++ (info.loc ++ ("]\n" ++ (info.stack ++ ""))))))) := rfl
    rw [String.append_empty] at h1
    exact h1

/-- C2 witness: the panicking sample app (no error sink configured)
runs to the guarded result with no report emitted. -/
theorem claim2_witness :
    (samplePanicApp.Handler sampleRequest).outcome = .panics samplePanic ∧
    ServeHTTP samplePanicApp sampleRequest =
      some (guardState samplePanicApp (handlerState samplePanicApp sampleRequest)
        samplePanic, samplePanicApp) :=
  ⟨rfl, (claim2_panic_response_and_report samplePanicApp sampleRequest
    samplePanic rfl).1 rfl⟩

/-- C4: the record's byte counter is the uint64 sum of the counts the
underlying writer reported across all writes, and its status is the
last status the handler explicitly set — 200 when it never set one, and
500 once the guard recovers a panic; completion stamping changes
neither; in particular a request that neither panics nor sets a status
records status 200 and exactly the handler's reported byte total. -/
theorem claim4_bytes_and_status (app : App) (r : Request) :
    (handlerState app r).record.Bytes =
      sumReported (app.Handler r).events % u64Mod ∧
    (handlerState app r).record.Status =
      ((setStatuses (app.Handler r).events).getLast?).getD 200 ∧
    (completeState app r).record.Bytes = (handlerState app r).record.Bytes ∧
    (completeState app r).record.Status = (handlerState app r).record.Status ∧
    (∀ info : PanicInfo,
      (guardState app (handlerState app r) info).record.Status = 500) ∧
    (setStatuses (app.Handler r).events = [] →
      (handlerState app r).record.Status = 200) ∧
    (sumReported (app.Handler r).events < u64Mod →
      (handlerState app r).record.Bytes = sumReported (app.Handler r).events) := by
  have hb : (handlerState app r).record.Bytes =
      sumReported (app.Handler r).events % u64Mod := by
    unfold handlerState
    rw [runEvents_bytes (app.Handler r).events _ u64Mod_pos]
    simp [initRecord]
  have hs : (handlerState app r).record.Status =
      ((setStatuses (app.Handler r).events).getLast?).getD 200 := by
    unfold handlerState
    rw [runEvents_status]
    rfl
  refine ⟨hb, hs, rfl, rfl, fun info => rfl, ?_, ?_⟩
  · intro hnone
    rw [hs, hnone]
    rfl
  · intro hlt
    rw [hb, Nat.mod_eq_of_lt hlt]

/-- C4 witness: a handler that writes nothing and sets no status
records status 200 and byte total 0. -/
theorem claim4_witness :
    setStatuses ((NewApp constHandler false).Handler sampleRequest).events = [] ∧
    sumReported ((NewApp constHandler false).Handler sampleRequest).events < u64Mod ∧
    (handlerState (NewApp constHandler false) sampleRequest).record.Status = 200 ∧
    (handlerState (NewApp constHandler false) sampleRequest).record.Bytes =
      sumReported ((NewApp constHandler false).Handler sampleRequest).events :=
  ⟨rfl, by decide,
   (claim4_bytes_and_status (NewApp constHandler false) sampleRequest).2.2.2.2.2.1 rfl,
   (claim4_bytes_and_status (NewApp constHandler false) sampleRequest).2.2.2.2.2.2
     (by decide)⟩

/-- C1 counterexample: a concrete panicking request on an app with one
registered log sink.  ServeHTTP returns the guarded state unchanged
app: the sink's queue is still empty — the finished record was pushed
to no sink — and the record still carries the zero completion time even
though the request completed at a non-zero instant; only the status-500
part of the claim holds. -/
theorem claim1_counterexample :
    samplePanicApp.Loggers = [{ cap := 1000, buf := [] }] ∧
    ServeHTTP samplePanicApp sampleRequest =
      some (ReqState.mk
        (LogRecord.mk "203.0.113.5" "-" sampleTime timeZero "GET /x HTTP/1.1"
          500 59 "-" "test-agent")
        [errorPageShort], samplePanicApp) ∧
    sampleRequest.completedAt ≠ timeZero :=
  ⟨rfl, rfl, by decide⟩

/-- C1 amended: when the handler panics, the guard fully handles the
response (the record carries status 500) and error reporting, but
ServeHTTP then returns without recording the completion timestamp (the
record keeps the zero time) and without pushing the record onto any log
sink — every registered logger queue is exactly as it was before the
request; fan-out and completion stamping happen only on the
non-panicking path. -/
theorem claim1_no_fanout_on_panic (app : App) (r : Request) (info : PanicInfo)
    (hp : (app.Handler r).outcome = .panics info)
    (hroom : ∀ ch : Chan String, app.Errors = some ch → ch.buf.length < ch.cap) :
    ∃ (st : ReqState) (app' : App), ServeHTTP app r = some (st, app') ∧
      app'.Loggers = app.Loggers ∧
      st.record.RequestCompleted = timeZero ∧
      st.record.Status = 500 ∧
      st.out = chunksOf (app.Handler r).events ++
        [panicBody app.StackIn500 info] := by
  have hcomp : (guardState app (handlerState app r) info).record.RequestCompleted =
      timeZero := by
    show (handlerState app r).record.RequestCompleted = timeZero
    unfold handlerState
    rw [(runEvents_fixed (app.Handler r).events _).2.2.2.1]
    rfl
  have hout : (guardState app (handlerState app r) info).out =
      chunksOf (app.Handler r).events ++ [panicBody app.StackIn500 info] := by
    show (handlerState app r).out ++ [panicBody app.StackIn500 info] = _
    rw [handlerState_out]
  rw [serveHTTP_panics app r info hp]
  cases he : app.Errors with
  | none =>
    refine ⟨guardState app (handlerState app r) info, app, ?_, rfl, hcomp, rfl, hout⟩
    exact handlePanic_none app (handlerState app r) info he
  | some ch =>
    refine ⟨guardState app (handlerState app r) info,
      { app with Errors := some (Chan.mk ch.cap (ch.buf ++ [panicMsg app.StackInLog info])) },
      ?_, rfl, hcomp, rfl, hout⟩
    rw [handlePanic_some app (handlerState app r) info ch he]
    unfold Chan.send
    rw [if_pos (hroom ch he)]
    rfl

/-- C1 witness: the amended theorem applied to the concrete panicking
app; after the request the single registered sink is still empty, the
completion time is still zero, the status is 500. -/
theorem claim1_witness :
    (samplePanicApp.Handler sampleRequest).outcome = .panics samplePanic ∧
    (ServeHTTP samplePanicApp sampleRequest).map
        (fun p => (p.2.Loggers, p.1.record.RequestCompleted, p.1.record.Status)) =
      some (samplePanicApp.Loggers, timeZero, 500) := by
  refine ⟨rfl, ?_⟩
  obtain ⟨st, app', heq, hl, hc, hs, -⟩ :=
    claim1_no_fanout_on_panic samplePanicApp sampleRequest samplePanic rfl
      (fun ch h => Option.noConfusion h)
  rw [heq]
  simp [hl, hc, hs]

/-- C10 witness: two completion instants one nanosecond apart fall in
the same millisecond bucket, so the performance lines coincide. -/
theorem claim10_witness :
    elapsedMs { combinedSample sampleTime with RequestCompleted := sampleTime } =
      elapsedMs { combinedSample sampleTime with RequestCompleted := tinyLater } ∧
    PerfFormat { combinedSample sampleTime with RequestCompleted := sampleTime } =
      PerfFormat { combinedSample sampleTime with RequestCompleted := tinyLater } :=
  ⟨by decide,
   claim10_bracket_timestamp_is_start.2.1 (combinedSample sampleTime)
     sampleTime tinyLater (by decide)⟩

end Webapp
